import Mathlib

/-!
Verification of the SentinelAI fraud-detection scoring core.

Shallow embedding of backend/app (scoring service, feature builder, alert
lifecycle, rate limiter) into Lean 4. Python floats are modelled as rationals,
timestamps as integer seconds, database tables as lists of rows, and the
optional / fallible parts (ML inference, HTTP validation errors) as Option
and Except values. Each definition mirrors one Python function or model
declaration; theorems at the end settle the specification claims.
-/

namespace SentinelAI

/-- Model of Python str.lower(): lower-case every character. -/
def lowerStr (s : String) : String := ⟨s.data.map Char.toLower⟩

/-- Model of Python str.strip(): drop leading and trailing whitespace. -/
def pyStrip (s : String) : String :=
  ⟨((s.data.dropWhile Char.isWhitespace).reverse.dropWhile Char.isWhitespace).reverse⟩

/-- Feature dictionary produced by FeatureBuilder.build
    (backend/app/services/feature_builder.py), restricted to the keys read by
    ScoringService._apply_rules. `category` and `arrondissement` are optional
    strings (the Python dict may hold None); `avg_amount_category_7d` is None
    when no 7-day history exists. -/
structure Features where
  amount : ℚ
  hour : ℤ
  category : Option String
  arrondissement : Option String
  is_online : Bool
  merchant_tx_count_24h : ℤ
  avg_amount_category_7d : Option ℚ
  deriving DecidableEq

/-- Rule configuration of ScoringService.__init__ : high-risk categories and
    zones, normalised to lower case by the constructor. -/
structure RulesConfig where
  high_risk_categories : List String
  high_risk_zones : List String
  deriving DecidableEq

/-- Default constructor arguments of ScoringService, lower-cased as in
    __init__ (scoring_service.py lines 61-72). -/
def defaultRulesConfig : RulesConfig :=
  { high_risk_categories := ["ecommerce", "electronics", "hotel"].map lowerStr
    high_risk_zones := ["Saint-Denis", "Aubervilliers", "Montreuil"].map lowerStr }

/-- Rule block 1 of _apply_rules: amount tiers (mutually exclusive if/elif). -/
def amountRule (amount : ℚ) (sf : ℤ × List String) : ℤ × List String :=
  if amount ≥ 200 then (sf.1 + 35, sf.2 ++ ["Montant très élevé (>= 200€)"])
  else if amount ≥ 120 then (sf.1 + 20, sf.2 ++ ["Montant élevé (>= 120€)"])
  else if amount ≥ 60 then (sf.1 + 10, sf.2 ++ ["Montant au-dessus de la moyenne (>= 60€)"])
  else sf

/-- Rule block 2 of _apply_rules: odd hours (if/elif). -/
def hourRule (hour : ℤ) (sf : ℤ × List String) : ℤ × List String :=
  if hour ≤ 5 then (sf.1 + 20, sf.2 ++ ["Horaire atypique (nuit)"])
  else if hour ≤ 7 then (sf.1 + 10, sf.2 ++ ["Horaire tôt le matin"])
  else sf

/-- Rule block 3 of _apply_rules: online transaction. -/
def onlineRule (is_online : Bool) (sf : ℤ × List String) : ℤ × List String :=
  if is_online then (sf.1 + 10, sf.2 ++ ["Transaction en ligne"]) else sf

/-- Rule block 4 of _apply_rules: high-risk category membership. -/
def categoryRule (cfg : RulesConfig) (category : String) (sf : ℤ × List String) :
    ℤ × List String :=
  if category ∈ cfg.high_risk_categories then
    (sf.1 + 15, sf.2 ++ ["Catégorie à risque (" ++ category ++ ")"])
  else sf

/-- Rule block 5 of _apply_rules: high-risk zone (the Python guard
    `zone and zone in ...` requires a non-empty zone). -/
def zoneRule (cfg : RulesConfig) (zone : String) (sf : ℤ × List String) :
    ℤ × List String :=
  if zone ≠ "" ∧ zone ∈ cfg.high_risk_zones then (sf.1 + 10, sf.2 ++ ["Zone sensible"])
  else sf

/-- Rule block 6 of _apply_rules: merchant 24h frequency tiers (if/elif). -/
def freqRule (merchant_tx_count_24h : ℤ) (sf : ℤ × List String) : ℤ × List String :=
  if merchant_tx_count_24h ≥ 5 then
    (sf.1 + 15, sf.2 ++ ["Fréquence élevée (>= 5 transactions/24h chez ce commerçant)"])
  else if merchant_tx_count_24h ≥ 3 then
    (sf.1 + 8, sf.2 ++ ["Fréquence modérée (>= 3 transactions/24h chez ce commerçant)"])
  else sf

/-- Rule block 7 of _apply_rules: amount at least twice the 7-day category
    mean, only when that mean is present and positive. -/
def avgRule (amount : ℚ) (avg_amount_7d : Option ℚ) (sf : ℤ × List String) :
    ℤ × List String :=
  match avg_amount_7d with
  | none => sf
  | some avg =>
      if avg > 0 then
        if amount ≥ 2 * avg then
          (sf.1 + 10, sf.2 ++ ["Montant très supérieur à la moyenne de la catégorie (7j)"])
        else sf
      else sf

/-- ScoringService._apply_rules (scoring_service.py lines 82-155): starts at
    score 10 with an empty factor list, runs the seven numbered rule blocks in
    order, clamps the score to [0,100] and keeps the first 5 factors. The
    Python `(f.get("category") or "").lower()` reads become `lowerStr (getD "")`. -/
def applyRules (cfg : RulesConfig) (f : Features) : ℤ × List String :=
  let category := lowerStr (f.category.getD "")
  let zone := lowerStr (f.arrondissement.getD "")
  let sf : ℤ × List String := (10, [])
  let sf := amountRule f.amount sf
  let sf := hourRule f.hour sf
  let sf := onlineRule f.is_online sf
  let sf := categoryRule cfg category sf
  let sf := zoneRule cfg zone sf
  let sf := freqRule f.merchant_tx_count_24h sf
  let sf := avgRule f.amount f.avg_amount_category_7d sf
  (max 0 (min 100 sf.1), sf.2.take 5)

/-- ScoringService._risk_level. -/
def riskLevel (score : ℤ) : String :=
  if score ≥ 70 then "HIGH" else if score ≥ 40 then "MEDIUM" else "LOW"

/-- Spec-side increment for the amount tier (claim wording). -/
def specIncAmount (amount : ℚ) : ℤ :=
  if amount ≥ 200 then 35 else if amount ≥ 120 then 20 else if amount ≥ 60 then 10 else 0

/-- Spec-side factors for the amount tier. -/
def specFacAmount (amount : ℚ) : List String :=
  if amount ≥ 200 then ["Montant très élevé (>= 200€)"]
  else if amount ≥ 120 then ["Montant élevé (>= 120€)"]
  else if amount ≥ 60 then ["Montant au-dessus de la moyenne (>= 60€)"]
  else []

/-- Spec-side increment for the odd-hour tier. -/
def specIncHour (hour : ℤ) : ℤ :=
  if hour ≤ 5 then 20 else if hour ≤ 7 then 10 else 0

/-- Spec-side factors for the odd-hour tier. -/
def specFacHour (hour : ℤ) : List String :=
  if hour ≤ 5 then ["Horaire atypique (nuit)"]
  else if hour ≤ 7 then ["Horaire tôt le matin"]
  else []

/-- Spec-side increment for the online flag. -/
def specIncOnline (is_online : Bool) : ℤ := if is_online then 10 else 0

/-- Spec-side factors for the online flag. -/
def specFacOnline (is_online : Bool) : List String :=
  if is_online then ["Transaction en ligne"] else []

/-- Spec-side increment for the high-risk category condition. -/
def specIncCategory (cfg : RulesConfig) (category : String) : ℤ :=
  if category ∈ cfg.high_risk_categories then 15 else 0

/-- Spec-side factors for the high-risk category condition. -/
def specFacCategory (cfg : RulesConfig) (category : String) : List String :=
  if category ∈ cfg.high_risk_categories then ["Catégorie à risque (" ++ category ++ ")"]
  else []

/-- Spec-side increment for the high-risk zone condition. -/
def specIncZone (cfg : RulesConfig) (zone : String) : ℤ :=
  if zone ≠ "" ∧ zone ∈ cfg.high_risk_zones then 10 else 0

/-- Spec-side factors for the high-risk zone condition. -/
def specFacZone (cfg : RulesConfig) (zone : String) : List String :=
  if zone ≠ "" ∧ zone ∈ cfg.high_risk_zones then ["Zone sensible"] else []

/-- Spec-side increment for the merchant 24h-frequency tier. -/
def specIncFreq (n : ℤ) : ℤ := if n ≥ 5 then 15 else if n ≥ 3 then 8 else 0

/-- Spec-side factors for the merchant 24h-frequency tier. -/
def specFacFreq (n : ℤ) : List String :=
  if n ≥ 5 then ["Fréquence élevée (>= 5 transactions/24h chez ce commerçant)"]
  else if n ≥ 3 then ["Fréquence modérée (>= 3 transactions/24h chez ce commerçant)"]
  else []

/-- Spec-side increment for the amount-vs-7-day-mean condition: only when the
    mean is known (non-null) and positive. -/
def specIncAvg (amount : ℚ) (avg : Option ℚ) : ℤ :=
  match avg with
  | none => 0
  | some a => if a > 0 ∧ amount ≥ 2 * a then 10 else 0

/-- Spec-side factors for the amount-vs-7-day-mean condition. -/
def specFacAvg (amount : ℚ) (avg : Option ℚ) : List String :=
  match avg with
  | none => []
  | some a =>
      if a > 0 ∧ amount ≥ 2 * a then
        ["Montant très supérieur à la moyenne de la catégorie (7j)"]
      else []

/-- The rule score as the claim states it: 10 plus the per-condition fixed
    increments, clamped to [0,100]. -/
def ruleScoreSpec (cfg : RulesConfig) (f : Features) : ℤ :=
  let category := lowerStr (f.category.getD "")
  let zone := lowerStr (f.arrondissement.getD "")
  max 0 (min 100
    (10 + specIncAmount f.amount + specIncHour f.hour + specIncOnline f.is_online
       + specIncCategory cfg category + specIncZone cfg zone
       + specIncFreq f.merchant_tx_count_24h
       + specIncAvg f.amount f.avg_amount_category_7d))

/-- The factor list as the claim states it: the fired conditions' strings in
    evaluation order, truncated to the first 5. -/
def ruleFactorsSpec (cfg : RulesConfig) (f : Features) : List String :=
  let category := lowerStr (f.category.getD "")
  let zone := lowerStr (f.arrondissement.getD "")
  (specFacAmount f.amount ++ specFacHour f.hour ++ specFacOnline f.is_online
     ++ specFacCategory cfg category ++ specFacZone cfg zone
     ++ specFacFreq f.merchant_tx_count_24h
     ++ specFacAvg f.amount f.avg_amount_category_7d).take 5

/-- Result of app.ml.inference.infer_score when a model is loaded
    (InferenceResult dataclass in backend/app/ml/inference.py). -/
structure InferenceResult where
  score : ℤ
  model_version : String
  kind : String
  deriving DecidableEq

/-- Outcome of the optional ML step inside ScoringService.score_and_persist:
    the try block either raises (caught by `except Exception: pass`), or
    infer_score returns None (no model / unsupported kind), or a model fires
    with an InferenceResult. -/
inductive MlOutcome where
  | raised
  | absent
  | fired (r : InferenceResult)
  deriving DecidableEq

/-- The pure computation of score_and_persist (scoring_service.py lines
    166-198): fusion of the rule score with the optional ML score. Returns
    (final_score, final_factors, final_model_version). `fallbackVersion` is the
    service's self.model_version field, "rules_v1" at construction; every call
    site in the repository constructs a fresh ScoringService, so it equals
    "rules_v1" on entry. On a raise or an absent model the defaults stand and
    no error propagates (the except clause swallows everything). -/
def scoreCompute (fallbackVersion : String) (rules_score : ℤ)
    (rules_factors : List String) (ml : MlOutcome) : ℤ × List String × String :=
  match ml with
  | .raised => (rules_score, rules_factors, fallbackVersion)
  | .absent => (rules_score, rules_factors, fallbackVersion)
  | .fired r =>
      let ml_score := max 0 (min 100 r.score)
      (max rules_score ml_score,
       (("Modèle IA utilisé: " ++ r.kind) :: rules_factors).take 5,
       r.model_version)

/-- A row of the risk_scores table (backend/app/models/risk_score.py),
    restricted to the scoring-relevant columns; ids are opaque naturals and
    timestamps integer seconds. -/
structure RiskScoreRow where
  transaction_id : ℕ
  score : ℤ
  model_version : String
  created_at : ℤ
  deriving DecidableEq

/-- The UPSERT of score_and_persist (scoring_service.py lines 209-228): one
    risk_scores row per transaction, overwritten in place when it exists. -/
def upsertRiskScore (existing : Option RiskScoreRow) (txId : ℕ) (final_score : ℤ)
    (version : String) (now : ℤ) : RiskScoreRow :=
  match existing with
  | some r =>
      { r with score := final_score, model_version := version, created_at := now }
  | none =>
      { transaction_id := txId, score := final_score, model_version := version,
        created_at := now }

/-- The full scoring pipeline for one transaction, as score_and_persist wires
    it: apply the rules to the features, fuse with the optional ML outcome,
    upsert the risk_scores row. Returns the persisted row together with the
    final factors. -/
def scoreAndPersist (cfg : RulesConfig) (fallbackVersion : String) (f : Features)
    (ml : MlOutcome) (existing : Option RiskScoreRow) (txId : ℕ) (now : ℤ) :
    RiskScoreRow × List String :=
  let rules := applyRules cfg f
  let fused := scoreCompute fallbackVersion rules.1 rules.2 ml
  (upsertRiskScore existing txId fused.1 fused.2.2 now, fused.2.1)

/-- A row of the alerts table (backend/app/models/alert.py), scoring-relevant
    columns. -/
structure AlertRow where
  id : ℕ
  transaction_id : ℕ
  risk_score_id : ℕ
  score_snapshot : ℤ
  status : String
  reason : Option String
  created_at : ℤ
  updated_at : ℤ
  deriving DecidableEq

/-- A row of the alert_events table (backend/app/models/alert_event.py). -/
structure AlertEventRow where
  alert_id : ℕ
  event_type : String
  old_status : Option String
  new_status : Option String
  message : Option String
  actor : Option String
  request_id : Option String
  created_at : ℤ
  deriving DecidableEq

/-- The alert decision of the /score endpoint (backend/app/api/score.py lines
    108-157), given the reloaded risk_scores row: when the final score reaches
    the threshold, update an existing alert's snapshot (appending one
    SCORE_UPDATED event) or create a new A_TRAITER alert (appending one CREATED
    event); below the threshold nothing happens. Returns the alert state after
    the call and the list of events appended by the call. -/
def alertStep (threshold score now : ℤ) (txId rsId newAlertId : ℕ)
    (existing : Option AlertRow) : Option AlertRow × List AlertEventRow :=
  if score ≥ threshold then
    match existing with
    | some a =>
        if a.score_snapshot ≠ score then
          (some { a with score_snapshot := score, updated_at := now },
           [{ alert_id := a.id, event_type := "SCORE_UPDATED",
              old_status := some a.status, new_status := some a.status,
              message := some ("score_snapshot: " ++ toString a.score_snapshot
                ++ " -> " ++ toString score),
              actor := none, request_id := none, created_at := now }])
        else (some a, [])
    | none =>
        let alert : AlertRow :=
          { id := newAlertId, transaction_id := txId, risk_score_id := rsId,
            score_snapshot := score, status := "A_TRAITER",
            reason := some "Score élevé détecté", created_at := now,
            updated_at := now }
        (some alert,
         [{ alert_id := newAlertId, event_type := "CREATED", old_status := none,
            new_status := some "A_TRAITER",
            message := some ("Alerte créée automatiquement (score >= "
              ++ toString threshold ++ ")"),
            actor := none, request_id := none, created_at := now }])
  else (existing, [])

/-- Alert status enum of backend/app/schemas/alerts.py. The spec names the
    states TO_REVIEW / UNDER_INVESTIGATION / CLOSED; the code values are
    A_TRAITER / EN_ENQUETE / CLOTURE. -/
inductive AlertStatus where
  | A_TRAITER
  | EN_ENQUETE
  | CLOTURE
  deriving DecidableEq

/-- The .value string of each AlertStatus member. -/
def AlertStatus.value : AlertStatus → String
  | .A_TRAITER => "A_TRAITER"
  | .EN_ENQUETE => "EN_ENQUETE"
  | .CLOTURE => "CLOTURE"

/-- AlertPatch payload (status plus optional comment). -/
structure AlertPatch where
  status : AlertStatus
  comment : Option String
  deriving DecidableEq

/-- Truthiness of `payload.comment and payload.comment.strip()` in Python:
    false when the comment is missing, empty, or whitespace-only. -/
def commentPresent (comment : Option String) : Bool :=
  match comment with
  | none => false
  | some c => ¬ pyStrip c = ""

/-- PATCH /alerts/{id} (backend/app/api/alerts.py lines 155-232) for an
    existing alert. Closing requires a non-blank comment (HTTP 422 otherwise,
    raised before any write). On success the alert's status and updated_at are
    set and exactly one STATUS_CHANGE event is appended, all inside the single
    db.commit; the embedding returns the post-call alert, the post-call event
    list and the validation error, if any, together. -/
def patchAlert (alert : AlertRow) (events : List AlertEventRow)
    (payload : AlertPatch) (actor rid : String) (now : ℤ) :
    AlertRow × List AlertEventRow × Option String :=
  let new_status := payload.status.value
  if new_status = "CLOTURE" ∧ ¬ commentPresent payload.comment then
    (alert, events, some "comment is required when closing an alert")
  else
    let old_status := alert.status
    let alert' := { alert with status := new_status, updated_at := now }
    (alert',
     events ++ [{ alert_id := alert.id, event_type := "STATUS_CHANGE",
                  old_status := some old_status, new_status := some alert'.status,
                  message := payload.comment, actor := some actor,
                  request_id := some rid, created_at := now }],
     none)

/-- A row of the transactions table (backend/app/models/transaction.py),
    restricted to the columns FeatureBuilder reads; occurred_at is modelled as
    integer seconds. -/
structure Txn where
  id : ℕ
  amount : ℚ
  currency : String
  merchant_name : String
  merchant_category : String
  arrondissement : Option String
  channel : String
  is_online : Bool
  occurred_at : ℤ
  deriving DecidableEq

/-- The 24h merchant-frequency query of FeatureBuilder.build
    (feature_builder.py lines 46-53): counts transactions of the same merchant
    with occurred_at >= tx.occurred_at - 24h. The query puts no upper bound on
    occurred_at, exactly as written in the source. -/
def merchantTxCount24h (db : List Txn) (tx : Txn) : ℤ :=
  (db.filter (fun t =>
    decide (t.merchant_name = tx.merchant_name ∧
            t.occurred_at ≥ tx.occurred_at - 24 * 3600))).length

/-- The 7-day category-mean query of FeatureBuilder.build (feature_builder.py
    lines 56-64): AVG(amount) over transactions of the same category with
    occurred_at >= tx.occurred_at - 7 days, None when no row matches. As with
    the count, the query puts no upper bound on occurred_at. -/
def avgAmountCategory7d (db : List Txn) (tx : Txn) : Option ℚ :=
  let rows := db.filter (fun t =>
    decide (t.merchant_category = tx.merchant_category ∧
            t.occurred_at ≥ tx.occurred_at - 7 * 24 * 3600))
  if rows.length = 0 then none
  else some ((rows.map (fun t => t.amount)).sum / rows.length)

/-- FeatureBuilder.build (feature_builder.py lines 42-78) restricted to the
    keys the scorer reads; hour is occurred_at's hour of day. -/
def buildFeatures (db : List Txn) (tx : Txn) : Features :=
  { amount := tx.amount
    hour := (tx.occurred_at / 3600) % 24
    category := some tx.merchant_category
    arrondissement := tx.arrondissement
    is_online := tx.is_online
    merchant_tx_count_24h := merchantTxCount24h db tx
    avg_amount_category_7d := avgAmountCategory7d db tx }

/-- The merchant count over the trailing 24-hour window ending at
    tx.occurred_at, as the specification words it ("strictly historical
    relative to occurred_at", "never later transactions"): both a lower and an
    upper bound on occurred_at. Comparison point for the source query above. -/
def merchantTxCount24hHistorical (db : List Txn) (tx : Txn) : ℤ :=
  (db.filter (fun t =>
    decide (t.merchant_name = tx.merchant_name ∧
            t.occurred_at ≥ tx.occurred_at - 24 * 3600 ∧
            t.occurred_at ≤ tx.occurred_at))).length

/-- Declared properties of an ORM column, as carried by the mapped_column
    declarations of backend/app/models. `unique` records the storage-layer
    UNIQUE constraint emitted for the column. -/
structure ColumnSpec where
  table : String
  name : String
  nullable : Bool
  unique : Bool
  indexed : Bool
  foreign_key : Option String
  deriving DecidableEq

/-- risk_scores.transaction_id (backend/app/models/risk_score.py lines 36-42):
    ForeignKey("transactions.id"), nullable=False, unique=True, index=True. -/
def riskScores_transactionId_col : ColumnSpec :=
  { table := "risk_scores", name := "transaction_id", nullable := false,
    unique := true, indexed := true, foreign_key := some "transactions.id" }

/-- alerts.risk_score_id (backend/app/models/alert.py lines 45-51):
    ForeignKey("risk_scores.id"), nullable=False, unique=True, index=True. -/
def alerts_riskScoreId_col : ColumnSpec :=
  { table := "alerts", name := "risk_score_id", nullable := false,
    unique := true, indexed := true, foreign_key := some "risk_scores.id" }

/-- A list of rows satisfies a UNIQUE constraint on a key column when no two
    rows share the key value. -/
abbrev uniquePerKey {α β : Type} (key : α → β) (rows : List α) : Prop :=
  (rows.map key).Nodup

/-- Settings fields read by the rate limiter (backend/app/core/settings.py:
    RATE_LIMIT_ENABLED, RATE_LIMIT_RPM). -/
structure RLSettings where
  enabled : Bool
  rpm : ℤ
  deriving DecidableEq

/-- One fixed-window counter of InMemoryRateLimiter, keyed per (IP, route). -/
structure Bucket where
  window_start : ℚ
  count : ℤ
  deriving DecidableEq

/-- Outcome of one admission check: admitted, or AppHTTPException(429,
    "RATE_LIMITED", ..., details including limit_rpm). -/
inductive CheckResult where
  | admitted
  | rejected (status : ℤ) (code : String) (limit_rpm : ℤ)
  deriving DecidableEq

/-- InMemoryRateLimiter.check (backend/app/core/rate_limit.py lines 53-87) for
    a single (IP, route) key: time is rational seconds. `s.rpm or 120` in
    Python turns a zero RPM into 120; a non-positive limit disables the check.
    A missing or expired bucket (now - window_start >= 60) is replaced by a
    fresh one with count 1; otherwise the count is incremented first and the
    check rejects when it exceeds the limit. -/
def rlCheck (s : RLSettings) (bucket : Option Bucket) (now : ℚ) :
    Option Bucket × CheckResult :=
  if ¬ s.enabled then (bucket, .admitted)
  else
    let limit := if s.rpm = 0 then 120 else s.rpm
    if limit ≤ 0 then (bucket, .admitted)
    else
      match bucket with
      | none => (some { window_start := now, count := 1 }, .admitted)
      | some b =>
          if now - b.window_start ≥ 60 then
            (some { window_start := now, count := 1 }, .admitted)
          else
            let b' : Bucket := { b with count := b.count + 1 }
            if b'.count > limit then
              (some b', .rejected 429 "RATE_LIMITED" limit)
            else (some b', .admitted)

/-- Sequential admission checks for one (IP, route) key: the per-call results,
    threading the bucket state. -/
def rlResults (s : RLSettings) : Option Bucket → List ℚ → List CheckResult
  | _, [] => []
  | b, t :: ts =>
      let step := rlCheck s b t
      step.2 :: rlResults s step.1 ts

/-- The spec scenario for the rule scorer: amount=250, hour=3, online,
    category electronics, merchant_24h_count=6, avg_7d=50. -/
def scenarioFeatures : Features :=
  { amount := 250, hour := 3, category := some "electronics", arrondissement := none,
    is_online := true, merchant_tx_count_24h := 6, avg_amount_category_7d := some 50 }

/-- Concrete transaction used to exercise the feature-builder windows. -/
def tx0 : Txn :=
  { id := 0, amount := 50, currency := "EUR", merchant_name := "m",
    merchant_category := "c", arrondissement := none, channel := "pos",
    is_online := false, occurred_at := 0 }

/-- A same-merchant transaction occurring 100 days AFTER tx0. -/
def txFuture : Txn := { tx0 with id := 1, occurred_at := 100 * 24 * 3600 }

/-- Concrete alert used to exercise the alert endpoints. -/
def aEx : AlertRow :=
  { id := 1, transaction_id := 2, risk_score_id := 3,
    score_snapshot := 60, status := "A_TRAITER", reason := some "r",
    created_at := 0, updated_at := 0 }

/-- Two risk_scores rows with distinct transactions. -/
def rsRowsEx : List RiskScoreRow :=
  [{ transaction_id := 1, score := 80, model_version := "rules_v1", created_at := 0 },
   { transaction_id := 2, score := 40, model_version := "rules_v1", created_at := 0 }]

/-- Two alerts rows attached to distinct risk scores. -/
def alertRowsEx : List AlertRow :=
  [aEx, { aEx with id := 4, transaction_id := 5, risk_score_id := 6 }]

theorem amountRule_eq (amount : ℚ) (sf : ℤ × List String) :
    amountRule amount sf = (sf.1 + specIncAmount amount, sf.2 ++ specFacAmount amount) := by
  unfold amountRule specIncAmount specFacAmount
  split_ifs <;> simp

theorem hourRule_eq (hour : ℤ) (sf : ℤ × List String) :
    hourRule hour sf = (sf.1 + specIncHour hour, sf.2 ++ specFacHour hour) := by
  unfold hourRule specIncHour specFacHour
  split_ifs <;> simp

theorem onlineRule_eq (b : Bool) (sf : ℤ × List String) :
    onlineRule b sf = (sf.1 + specIncOnline b, sf.2 ++ specFacOnline b) := by
  unfold onlineRule specIncOnline specFacOnline
  split_ifs <;> simp

theorem categoryRule_eq (cfg : RulesConfig) (c : String) (sf : ℤ × List String) :
    categoryRule cfg c sf = (sf.1 + specIncCategory cfg c, sf.2 ++ specFacCategory cfg c) := by
  unfold categoryRule specIncCategory specFacCategory
  split_ifs <;> simp

theorem zoneRule_eq (cfg : RulesConfig) (z : String) (sf : ℤ × List String) :
    zoneRule cfg z sf = (sf.1 + specIncZone cfg z, sf.2 ++ specFacZone cfg z) := by
  unfold zoneRule specIncZone specFacZone
  split_ifs <;> simp

theorem freqRule_eq (n : ℤ) (sf : ℤ × List String) :
    freqRule n sf = (sf.1 + specIncFreq n, sf.2 ++ specFacFreq n) := by
  unfold freqRule specIncFreq specFacFreq
  split_ifs <;> simp

theorem avgRule_eq (amount : ℚ) (avg : Option ℚ) (sf : ℤ × List String) :
    avgRule amount avg sf = (sf.1 + specIncAvg amount avg, sf.2 ++ specFacAvg amount avg) := by
  unfold avgRule specIncAvg specFacAvg
  cases avg with
  | none => simp
  | some a => by_cases h1 : a > 0 <;> by_cases h2 : amount ≥ 2 * a <;> simp [h1, h2]

theorem applyRules_eq (cfg : RulesConfig) (f : Features) :
    applyRules cfg f = (ruleScoreSpec cfg f, ruleFactorsSpec cfg f) := by
  unfold applyRules ruleScoreSpec ruleFactorsSpec
  simp only [amountRule_eq, hourRule_eq, onlineRule_eq, categoryRule_eq, zoneRule_eq,
    freqRule_eq, avgRule_eq, List.nil_append, List.append_assoc]

theorem specIncAmount_nonneg (a : ℚ) : 0 ≤ specIncAmount a := by
  unfold specIncAmount; split_ifs <;> norm_num

theorem specIncHour_nonneg (h : ℤ) : 0 ≤ specIncHour h := by
  unfold specIncHour; split_ifs <;> norm_num

theorem specIncOnline_nonneg (b : Bool) : 0 ≤ specIncOnline b := by
  unfold specIncOnline; split_ifs <;> norm_num

theorem specIncCategory_nonneg (cfg : RulesConfig) (c : String) :
    0 ≤ specIncCategory cfg c := by
  unfold specIncCategory; split_ifs <;> norm_num

theorem specIncZone_nonneg (cfg : RulesConfig) (z : String) : 0 ≤ specIncZone cfg z := by
  unfold specIncZone; split_ifs <;> norm_num

theorem specIncFreq_nonneg (n : ℤ) : 0 ≤ specIncFreq n := by
  unfold specIncFreq; split_ifs <;> norm_num

theorem specIncAvg_nonneg (a : ℚ) (avg : Option ℚ) : 0 ≤ specIncAvg a avg := by
  unfold specIncAvg
  cases avg with
  | none => norm_num
  | some x =>
      show (0:ℤ) ≤ if x > 0 ∧ a ≥ 2 * x then 10 else 0
      split_ifs <;> norm_num

theorem ruleScore_bounds (cfg : RulesConfig) (f : Features) :
    10 ≤ (applyRules cfg f).1 ∧ (applyRules cfg f).1 ≤ 100 := by
  rw [applyRules_eq]
  have a1 := specIncAmount_nonneg f.amount
  have a2 := specIncHour_nonneg f.hour
  have a3 := specIncOnline_nonneg f.is_online
  have a4 := specIncCategory_nonneg cfg (lowerStr (f.category.getD ""))
  have a5 := specIncZone_nonneg cfg (lowerStr (f.arrondissement.getD ""))
  have a6 := specIncFreq_nonneg f.merchant_tx_count_24h
  have a7 := specIncAvg_nonneg f.amount f.avg_amount_category_7d
  unfold ruleScoreSpec
  dsimp only
  rw [max_def, min_def]
  constructor <;> split_ifs <;> omega

/-- C2: the rule score equals 10 plus the fixed per-condition increments,
    clamped to [0,100], with the factor list being the fired conditions'
    strings truncated to the first 5 in evaluation order; the spec scenario
    (amount=250, hour=3, online, electronics, count 6, avg 50) yields score
    100 and risk level HIGH. -/
theorem c2_rule_scorer :
    (∀ (cfg : RulesConfig) (f : Features),
        applyRules cfg f = (ruleScoreSpec cfg f, ruleFactorsSpec cfg f))
    ∧ (applyRules defaultRulesConfig scenarioFeatures).1 = 100
    ∧ riskLevel (applyRules defaultRulesConfig scenarioFeatures).1 = "HIGH" := by
  have hscen : (applyRules defaultRulesConfig scenarioFeatures).1 = 100 := by
    rw [applyRules_eq]
    have h7 : specIncAvg (250 : ℚ) (some 50) = 10 := by unfold specIncAvg; norm_num
    show ruleScoreSpec defaultRulesConfig scenarioFeatures = 100
    unfold ruleScoreSpec
    show max 0 (min 100
        (10 + specIncAmount 250 + specIncHour 3 + specIncOnline true
           + specIncCategory defaultRulesConfig (lowerStr "electronics")
           + specIncZone defaultRulesConfig (lowerStr "")
           + specIncFreq 6 + specIncAvg 250 (some 50))) = 100
    rw [h7]
    decide
  refine ⟨applyRules_eq, hscen, ?_⟩
  rw [hscen]
  decide

/-- C10: the rule score is at least 10 (base 10, rules only add) and at most
    100, and the persisted final score also lies in [10,100]; in particular no
    input can produce a score of 0 or anything below 10. -/
theorem c10_score_floor :
    ∀ (cfg : RulesConfig) (f : Features) (fallback : String) (ml : MlOutcome)
      (existing : Option RiskScoreRow) (txId : ℕ) (now : ℤ),
      10 ≤ (applyRules cfg f).1 ∧ (applyRules cfg f).1 ≤ 100 ∧
      10 ≤ (scoreAndPersist cfg fallback f ml existing txId now).1.score ∧
      (scoreAndPersist cfg fallback f ml existing txId now).1.score ≤ 100 := by
  intro cfg f fallback ml existing txId now
  obtain ⟨h1, h2⟩ := ruleScore_bounds cfg f
  refine ⟨h1, h2, ?_, ?_⟩ <;>
    cases ml <;> cases existing <;>
      simp [scoreAndPersist, scoreCompute, upsertRiskScore] <;> omega
/-- C1: the persisted final score is max(rule_score, model score clamped to
    [0,100]) when the model responds, the rule score when it does not, and is
    never below the rule score. -/
theorem c1_fusion_floor :
    ∀ (cfg : RulesConfig) (fallback : String) (f : Features)
      (existing : Option RiskScoreRow) (txId : ℕ) (now : ℤ),
      (∀ r : InferenceResult,
         (scoreAndPersist cfg fallback f (.fired r) existing txId now).1.score
           = max (applyRules cfg f).1 (max 0 (min 100 r.score)))
      ∧ (scoreAndPersist cfg fallback f .absent existing txId now).1.score
          = (applyRules cfg f).1
      ∧ ∀ ml : MlOutcome,
          (applyRules cfg f).1 ≤ (scoreAndPersist cfg fallback f ml existing txId now).1.score := by
  intro cfg fallback f existing txId now
  refine ⟨fun r => ?_, ?_, fun ml => ?_⟩
  · cases existing <;> simp [scoreAndPersist, scoreCompute, upsertRiskScore]
  · cases existing <;> simp [scoreAndPersist, scoreCompute, upsertRiskScore]
  · cases ml <;> cases existing <;>
      simp [scoreAndPersist, scoreCompute, upsertRiskScore]

/-- C8: when the model raises or returns nothing, scoring degrades to
    rule-only (the pipeline is a total function: the exception is swallowed
    inside score_and_persist and nothing propagates), the persisted result is
    exactly the rule result with the rules-baseline version tag "rules_v1"
    (every caller constructs a fresh ScoringService, whose fallback version is
    "rules_v1"); the persisted model_version is a model's version only when
    the model fired on that call. -/
theorem c8_degraded_inference :
    ∀ (cfg : RulesConfig) (f : Features) (existing : Option RiskScoreRow)
      (txId : ℕ) (now : ℤ),
      (scoreAndPersist cfg "rules_v1" f .raised existing txId now
         = (upsertRiskScore existing txId (applyRules cfg f).1 "rules_v1" now,
            (applyRules cfg f).2))
      ∧ (scoreAndPersist cfg "rules_v1" f .absent existing txId now
         = (upsertRiskScore existing txId (applyRules cfg f).1 "rules_v1" now,
            (applyRules cfg f).2))
      ∧ (scoreAndPersist cfg "rules_v1" f .raised existing txId now).1.score
          = (applyRules cfg f).1
      ∧ (scoreAndPersist cfg "rules_v1" f .raised existing txId now).1.model_version
          = "rules_v1"
      ∧ (scoreAndPersist cfg "rules_v1" f .absent existing txId now).1.model_version
          = "rules_v1"
      ∧ ∀ (fallback : String) (r : InferenceResult),
          (scoreAndPersist cfg fallback f (.fired r) existing txId now).1.model_version
            = r.model_version := by
  intro cfg f existing txId now
  refine ⟨rfl, rfl, ?_, ?_, ?_, fun fallback r => ?_⟩ <;>
    cases existing <;> simp [scoreAndPersist, scoreCompute, upsertRiskScore]
/-- C3: the one-score-per-transaction and one-alert-per-score invariants are
    enforced as storage-layer UNIQUE constraints (unique=True on
    risk_scores.transaction_id and alerts.risk_score_id), and any table state
    satisfying such a constraint holds at most one row per key. -/
theorem c3_storage_uniqueness :
    riskScores_transactionId_col.unique = true
    ∧ alerts_riskScoreId_col.unique = true
    ∧ (∀ rows : List RiskScoreRow, uniquePerKey RiskScoreRow.transaction_id rows →
         ∀ txId : ℕ, List.count txId (rows.map RiskScoreRow.transaction_id) ≤ 1)
    ∧ (∀ rows : List AlertRow, uniquePerKey AlertRow.risk_score_id rows →
         ∀ rsId : ℕ, List.count rsId (rows.map AlertRow.risk_score_id) ≤ 1) := by
  refine ⟨rfl, rfl, fun rows h txId => ?_, fun rows h rsId => ?_⟩ <;>
    exact List.nodup_iff_count_le_one.mp h _

theorem c3_storage_uniqueness_witness :
    uniquePerKey RiskScoreRow.transaction_id rsRowsEx
    ∧ List.count 1 (rsRowsEx.map RiskScoreRow.transaction_id) ≤ 1
    ∧ uniquePerKey AlertRow.risk_score_id alertRowsEx
    ∧ List.count 3 (alertRowsEx.map AlertRow.risk_score_id) ≤ 1 :=
  ⟨by decide, c3_storage_uniqueness.2.2.1 rsRowsEx (by decide) 1,
   by decide, c3_storage_uniqueness.2.2.2 alertRowsEx (by decide) 3⟩

/-- C4: rescoring never changes an existing alert's status: at or above the
    threshold with a changed score, only score_snapshot and updated_at are
    modified and exactly one SCORE_UPDATED event (old_status = new_status =
    current status) is appended; below the threshold nothing at all happens
    to the alert and no event is appended. -/
theorem c4_rescore_frame :
    ∀ (threshold score now : ℤ) (txId rsId newAlertId : ℕ) (a : AlertRow),
      (score ≥ threshold → a.score_snapshot ≠ score →
         alertStep threshold score now txId rsId newAlertId (some a)
           = (some { a with score_snapshot := score, updated_at := now },
              [{ alert_id := a.id, event_type := "SCORE_UPDATED",
                 old_status := some a.status, new_status := some a.status,
                 message := some ("score_snapshot: " ++ toString a.score_snapshot
                   ++ " -> " ++ toString score),
                 actor := none, request_id := none, created_at := now }]))
      ∧ (∀ existing : Option AlertRow, score < threshold →
           alertStep threshold score now txId rsId newAlertId existing
             = (existing, [])) := by
  intro threshold score now txId rsId newAlertId a
  constructor
  · intro h1 h2
    simp [alertStep, h1, h2]
  · intro existing h
    simp [alertStep, not_le.mpr h]

theorem c4_rescore_frame_witness :
    alertStep 70 80 5 2 3 9 (some aEx)
      = (some { aEx with score_snapshot := 80, updated_at := 5 },
         [{ alert_id := aEx.id, event_type := "SCORE_UPDATED",
            old_status := some aEx.status, new_status := some aEx.status,
            message := some ("score_snapshot: " ++ toString aEx.score_snapshot
              ++ " -> " ++ toString (80 : ℤ)),
            actor := none, request_id := none, created_at := 5 }])
    ∧ alertStep 70 50 5 2 3 9 (some aEx) = (some aEx, []) :=
  ⟨(c4_rescore_frame 70 80 5 2 3 9 aEx).1 (by decide) (by decide),
   (c4_rescore_frame 70 50 5 2 3 9 aEx).2 (some aEx) (by decide)⟩

/-- C5: patching an alert to CLOTURE (the spec's CLOSED) with a missing,
    empty or whitespace-only comment fails with the validation error, appends
    no event and leaves the alert untouched; with a non-blank comment the
    transition to CLOTURE succeeds. -/
theorem c5_close_requires_comment :
    ∀ (alert : AlertRow) (events : List AlertEventRow) (comment : Option String)
      (actor rid : String) (now : ℤ),
      ((comment = none ∨ ∃ c, comment = some c ∧ pyStrip c = "") →
         patchAlert alert events { status := .CLOTURE, comment := comment } actor rid now
           = (alert, events, some "comment is required when closing an alert"))
      ∧ (∀ c, comment = some c → pyStrip c ≠ "" →
          (patchAlert alert events { status := .CLOTURE, comment := comment } actor rid now).2.2
            = none
          ∧ (patchAlert alert events
              { status := .CLOTURE, comment := comment } actor rid now).1.status
            = "CLOTURE") := by
  intro alert events comment actor rid now
  constructor
  · rintro (rfl | ⟨c, rfl, hc⟩)
    · simp [patchAlert, commentPresent, AlertStatus.value]
    · simp [patchAlert, commentPresent, AlertStatus.value, hc]
  · rintro c rfl hc
    simp [patchAlert, commentPresent, AlertStatus.value, hc]

theorem c5_close_requires_comment_witness :
    patchAlert aEx [] { status := .CLOTURE, comment := some "  " } "demo_admin" "rid" 7
      = (aEx, [], some "comment is required when closing an alert")
    ∧ (patchAlert aEx [] { status := .CLOTURE, comment := some "ok" }
        "demo_admin" "rid" 7).2.2 = none
    ∧ (patchAlert aEx [] { status := .CLOTURE, comment := some "ok" }
        "demo_admin" "rid" 7).1.status = "CLOTURE" :=
  ⟨(c5_close_requires_comment aEx [] (some "  ") "demo_admin" "rid" 7).1
     (Or.inr ⟨"  ", rfl, by decide⟩),
   ((c5_close_requires_comment aEx [] (some "ok") "demo_admin" "rid" 7).2 "ok" rfl
     (by decide)).1,
   ((c5_close_requires_comment aEx [] (some "ok") "demo_admin" "rid" 7).2 "ok" rfl
     (by decide)).2⟩

/-- C6: every successful status patch appends exactly one STATUS_CHANGE event
    whose old_status is the alert's prior status and whose new_status is the
    requested one, carrying the comment as message, the actor and the request
    correlation id; the alert's cached status and updated_at are part of the
    same returned state (single commit in the endpoint). -/
theorem c6_status_change_event :
    ∀ (alert : AlertRow) (events : List AlertEventRow) (payload : AlertPatch)
      (actor rid : String) (now : ℤ) (alert' : AlertRow)
      (events' : List AlertEventRow),
      patchAlert alert events payload actor rid now = (alert', events', none) →
      events' = events ++ [{ alert_id := alert.id, event_type := "STATUS_CHANGE",
                             old_status := some alert.status,
                             new_status := some payload.status.value,
                             message := payload.comment, actor := some actor,
                             request_id := some rid, created_at := now }]
      ∧ alert' = { alert with status := payload.status.value, updated_at := now }
      ∧ alert'.status = payload.status.value ∧ alert'.updated_at = now := by
  intro alert events payload actor rid now alert' events' h
  unfold patchAlert at h
  by_cases hcond : payload.status.value = "CLOTURE" ∧ ¬ commentPresent payload.comment
  · rw [if_pos hcond] at h
    simp at h
  · rw [if_neg hcond] at h
    injection h with h1 h2
    injection h2 with h2 h3
    subst h1; subst h2
    exact ⟨rfl, rfl, rfl, rfl⟩

theorem c6_status_change_event_witness :
    ([{ alert_id := aEx.id, event_type := "STATUS_CHANGE",
        old_status := some aEx.status, new_status := some AlertStatus.EN_ENQUETE.value,
        message := some "ok", actor := some "demo_admin", request_id := some "rid",
        created_at := 7 }] : List AlertEventRow)
      = [] ++ [{ alert_id := aEx.id, event_type := "STATUS_CHANGE",
                 old_status := some aEx.status,
                 new_status := some AlertStatus.EN_ENQUETE.value,
                 message := some "ok", actor := some "demo_admin",
                 request_id := some "rid", created_at := 7 }]
    ∧ ({ aEx with status := "EN_ENQUETE", updated_at := 7 } : AlertRow)
        = { aEx with status := AlertStatus.EN_ENQUETE.value, updated_at := 7 }
    ∧ ({ aEx with status := "EN_ENQUETE", updated_at := 7 } : AlertRow).status
        = AlertStatus.EN_ENQUETE.value
    ∧ ({ aEx with status := "EN_ENQUETE", updated_at := 7 } : AlertRow).updated_at = 7 :=
  c6_status_change_event aEx [] { status := .EN_ENQUETE, comment := some "ok" }
    "demo_admin" "rid" 7
    { aEx with status := "EN_ENQUETE", updated_at := 7 }
    [{ alert_id := aEx.id, event_type := "STATUS_CHANGE",
       old_status := some aEx.status, new_status := some AlertStatus.EN_ENQUETE.value,
       message := some "ok", actor := some "demo_admin", request_id := some "rid",
       created_at := 7 }]
    (by decide)

/-- C7 (code defect): the feature-builder window queries bound occurred_at
    from below only, so a transaction occurring AFTER tx.occurred_at changes
    the supposedly trailing 24h merchant count: with a same-merchant
    transaction 100 days in the future in the table the count for tx0 is 2,
    without it 1, while the trailing-window count of the spec is 1 in both
    cases. -/
theorem c7_feature_builder_lookahead :
    tx0.occurred_at < txFuture.occurred_at
    ∧ (buildFeatures [tx0, txFuture] tx0).merchant_tx_count_24h = 2
    ∧ (buildFeatures [tx0] tx0).merchant_tx_count_24h = 1
    ∧ merchantTxCount24hHistorical [tx0, txFuture] tx0 = 1
    ∧ merchantTxCount24hHistorical [tx0] tx0 = 1 := by decide
theorem rlCheck_step (s : RLSettings) (hs : s.enabled = true) (limit : ℤ)
    (hl : (if s.rpm = 0 then 120 else s.rpm) = limit) (hpos : 0 < limit)
    (ws : ℚ) (c : ℤ) (t : ℚ) (ht : t - ws < 60) :
    rlCheck s (some { window_start := ws, count := c }) t
      = (some { window_start := ws, count := c + 1 },
         if c + 1 > limit then CheckResult.rejected 429 "RATE_LIMITED" limit
         else CheckResult.admitted) := by
  unfold rlCheck
  rw [hs]
  simp only [Bool.not_true, hl]
  rw [if_neg (by simp), if_neg (not_le.mpr hpos), if_neg (not_le.mpr ht)]
  split_ifs <;> rfl

theorem rlResults_getD_within (s : RLSettings) (hs : s.enabled = true) (limit : ℤ)
    (hl : (if s.rpm = 0 then 120 else s.rpm) = limit) (hpos : 0 < limit) (ws : ℚ) :
    ∀ (ts : List ℚ) (c : ℤ) (k : ℕ), (∀ t ∈ ts, t - ws < 60) → k < ts.length →
      (rlResults s (some { window_start := ws, count := c }) ts).getD k .admitted
        = if c + k + 1 ≤ limit then CheckResult.admitted
          else CheckResult.rejected 429 "RATE_LIMITED" limit := by
  intro ts
  induction ts with
  | nil => intro c k _ hk; simp at hk
  | cons t ts ih =>
      intro c k hw hk
      have hstep := rlCheck_step s hs limit hl hpos ws c t (hw t (List.mem_cons_self t ts))
      simp only [rlResults, hstep]
      cases k with
      | zero =>
          simp only [List.getD_cons_zero]
          split_ifs <;> first | rfl | omega
      | succ k' =>
          simp only [List.getD_cons_succ]
          rw [ih (c + 1) k' (fun x hx => hw x (List.mem_cons_of_mem t hx))
            (by simpa using hk)]
          exact if_congr (by omega) rfl rfl

/-- C9: with rate limiting enabled and RATE_LIMIT_RPM = 120, a sequence of
    admission checks for one (identity, route) key all inside one 60-second
    fixed window admits the first 120 checks and rejects the 121st and every
    later one with HTTP 429, code RATE_LIMITED, and the configured limit 120
    in the error details. -/
theorem c9_rate_limit :
    ∀ (s : RLSettings) (t₁ : ℚ) (rest : List ℚ) (j : ℕ),
      s.enabled = true → s.rpm = 120 → (∀ t ∈ rest, t - t₁ < 60) →
      j < (t₁ :: rest).length →
      (rlResults s none (t₁ :: rest)).getD j .admitted
        = if j + 1 ≤ 120 then CheckResult.admitted
          else CheckResult.rejected 429 "RATE_LIMITED" 120 := by
  intro s t₁ rest j hs hrpm hw hj
  have hl : (if s.rpm = 0 then 120 else s.rpm) = (120 : ℤ) := by
    rw [hrpm]; norm_num
  have hstep0 : rlCheck s none t₁
      = (some { window_start := t₁, count := 1 }, CheckResult.admitted) := by
    unfold rlCheck
    rw [hs]
    simp only [Bool.not_true, hl]
    rw [if_neg (by simp), if_neg (by norm_num)]
  have hcons : rlResults s none (t₁ :: rest)
      = CheckResult.admitted
          :: rlResults s (some { window_start := t₁, count := 1 }) rest := by
    simp only [rlResults, hstep0]
  rw [hcons]
  cases j with
  | zero => simp
  | succ k =>
      simp only [List.getD_cons_succ]
      rw [rlResults_getD_within s hs 120 hl (by norm_num) t₁ rest 1 k hw
        (by simpa using hj)]
      exact if_congr (by omega) rfl rfl

theorem c9_rate_limit_witness :
    (rlResults { enabled := true, rpm := 120 } none
        ((0 : ℚ) :: List.replicate 121 0)).getD 120 .admitted
      = CheckResult.rejected 429 "RATE_LIMITED" 120
    ∧ (rlResults { enabled := true, rpm := 120 } none
        ((0 : ℚ) :: List.replicate 121 0)).getD 119 .admitted
      = CheckResult.admitted := by
  have hwin : ∀ t ∈ List.replicate 121 (0 : ℚ), t - 0 < 60 := by
    intro t ht
    rw [List.eq_of_mem_replicate ht]
    simp
  constructor
  · have h := c9_rate_limit { enabled := true, rpm := 120 } 0 (List.replicate 121 0)
      120 rfl rfl hwin (by simp)
    simpa using h
  · have h := c9_rate_limit { enabled := true, rpm := 120 } 0 (List.replicate 121 0)
      119 rfl rfl hwin (by simp)
    simpa using h
end SentinelAI
